import Mathlib

/-!
# Fabric chunk manager factory (internal/storage/fabric_factory.go)

A shallow embedding of the three functions of `fabric_factory.go` and the
properties of the override they implement.

Conventions of the embedding

* A Go pointer `*T` is an `Option T`: `none` is the nil pointer, `some v` a pointer
  to an object whose current value is `v`.
* Dereferencing nil panics; a panic is the `Except.error` branch, carrying a `Fault`.
* The pair `(ChunkManager, error)` a Go function returns is
  `Option ChunkManager × Option Err`, `none` being the nil interface value.
* A method with a pointer receiver is a function of the receiver and of the state of
  the storage backend (`World`); it gives back an `Outcome`: what the call returned,
  the object behind the receiver after the call, and the backend state after the call.
* `ChunkManagerFactory`, `NewChunkManagerFactoryWithParam` and
  `NewFabricRemoteChunkManager` are declared in other files of the package. The struct
  is given with the two fields `fabric_factory.go` reads, the two functions are the
  fields of `Collaborators`, over which the embedded functions are parametric.
-/

namespace storage

/-- Run-time panics the embedded code can raise. -/
inductive Fault where
  | nilDereference
  deriving DecidableEq, Repr

/-- The base factory `ChunkManagerFactory`, with the two fields read by
`fabric_factory.go`: the backend name chosen for the persistent storage role and the
stored configuration. The type of `config` is declared elsewhere and is a parameter. -/
structure ChunkManagerFactory (Config : Type) where
  persistentStorage : String
  config : Config
  deriving DecidableEq, Repr

/-- The struct `FabricChunkManagerFactory`: one field, a pointer to the base factory. -/
structure FabricChunkManagerFactory (Config : Type) where
  chunkManagerFactory : Option (ChunkManagerFactory Config)
  deriving DecidableEq, Repr

/-- The two functions `fabric_factory.go` calls and does not define.
`NewChunkManagerFactoryWithParam` returns a pointer to a base factory;
`NewFabricRemoteChunkManager` takes the context and the configuration, returns the
pair `(ChunkManager, error)`, and may change the state of the backend. -/
structure Collaborators (Params Config Context ChunkManager Err World : Type) where
  NewChunkManagerFactoryWithParam : Params → Option (ChunkManagerFactory Config)
  NewFabricRemoteChunkManager :
    Context → Config → World → (Option ChunkManager × Option Err) × World

/-- What a method call on a `*FabricChunkManagerFactory` leaves behind. -/
structure Outcome (Config ChunkManager Err World : Type) where
  result : Except Fault (Option ChunkManager × Option Err)
  receiver : Option (FabricChunkManagerFactory Config)
  world : World

section Embedding

variable {Params Config Context ChunkManager Err World : Type}

/--
Embedding of

    func (f *FabricChunkManagerFactory) newChunkManager(ctx context.Context, engine string) (ChunkManager, error) {
        factory := f.chunkManagerFactory
        c := factory.config
        return NewFabricRemoteChunkManager(ctx, c)
    }
-/
def newChunkManager
    (env : Collaborators Params Config Context ChunkManager Err World)
    (f : Option (FabricChunkManagerFactory Config)) (ctx : Context) (engine : String)
    (w : World) : Outcome Config ChunkManager Err World :=
  match f with
  | none => ⟨Except.error Fault.nilDereference, f, w⟩
  | some fv =>
    let factory := fv.chunkManagerFactory
    match factory with
    | none => ⟨Except.error Fault.nilDereference, f, w⟩
    | some base =>
      let c := base.config
      let r := env.NewFabricRemoteChunkManager ctx c w
      ⟨Except.ok r.1, f, r.2⟩

/--
Embedding of

    func (f *FabricChunkManagerFactory) NewPersistentStorageChunkManager(ctx context.Context) (ChunkManager, error) {
        return f.newChunkManager(ctx, f.chunkManagerFactory.persistentStorage)
    }

The argument `f.chunkManagerFactory.persistentStorage` is evaluated before the call,
so a nil `f` or a nil `f.chunkManagerFactory` panics here.
-/
def NewPersistentStorageChunkManager
    (env : Collaborators Params Config Context ChunkManager Err World)
    (f : Option (FabricChunkManagerFactory Config)) (ctx : Context)
    (w : World) : Outcome Config ChunkManager Err World :=
  match f with
  | none => ⟨Except.error Fault.nilDereference, f, w⟩
  | some fv =>
    match fv.chunkManagerFactory with
    | none => ⟨Except.error Fault.nilDereference, f, w⟩
    | some base => newChunkManager env f ctx base.persistentStorage w

/--
Embedding of

    func NewFabricChunkManagerFactoryWithParam(params *paramtable.ComponentParam) *FabricChunkManagerFactory {
        chunkManagerFactory := NewChunkManagerFactoryWithParam(params)
        f := &FabricChunkManagerFactory{chunkManagerFactory: chunkManagerFactory}
        return f
    }
-/
def NewFabricChunkManagerFactoryWithParam
    (env : Collaborators Params Config Context ChunkManager Err World)
    (params : Params) : Option (FabricChunkManagerFactory Config) :=
  let chunkManagerFactory := env.NewChunkManagerFactoryWithParam params
  let f := some (FabricChunkManagerFactory.mk chunkManagerFactory)
  f

end Embedding

section FabricRemoteModel

/-- Modelled from the spec: the cancellable context token handed to a construction
call. The Go type is `context.Context` of the standard library; the spec uses one
observation of it, whether the token is already cancelled when the call is made. -/
structure ContextToken where
  cancelled : Bool
  deriving DecidableEq, Repr

/-- Modelled from the spec: the Configuration of section 3, a mapping from named
setting to value, written as the list of its bindings. -/
abbrev Configuration : Type := List (String × String)

/-- Modelled from the spec: the error taxonomy of section 7 for the construction of the
fixed backend. The three kinds are distinguishable by the caller. -/
inductive StorageError where
  | configuration
  | cancellation
  | backendConstruction
  deriving DecidableEq, Repr

/-- Modelled from the spec: a Storage Handle of the fabric remote variant, created
fresh by a construction call from the configuration it was given. `resource` names the
backend resource the handle owns. -/
structure FabricRemoteChunkManager where
  resource : Nat
  config : Configuration
  deriving DecidableEq, Repr

/-- Modelled from the spec: the state of the fabric remote backend that a construction
call can observe or change: how many resources have been acquired so far, and whether
the remote store can be reached. -/
structure FabricBackend where
  acquired : Nat
  reachable : Bool
  deriving DecidableEq, Repr

/-- Modelled from the spec: whether a configuration lacks one of the settings the
fabric remote backend requires. The spec does not list the required settings; they are
the parameter `required`. -/
def missingRequired (required : List String) (c : Configuration) : Bool :=
  required.any (fun name => (c.lookup name).isNone)

/-- Modelled from the spec: the backend constructor `NewFabricRemoteChunkManager`,
which `fabric_factory.go` calls and which is defined in another file of the package.
Sections 6, 7 and 8 of the spec fix its contract: it returns a usable handle or an
error; a token already cancelled before the call gives a cancellation error with no
resource acquired (property 3); otherwise a missing required setting gives a
configuration error (property 6); otherwise a backend that cannot be set up gives a
backend construction error; otherwise a fresh handle is returned and owns a newly
acquired resource. -/
def NewFabricRemoteChunkManager (required : List String) (ctx : ContextToken)
    (c : Configuration) (w : FabricBackend) :
    (Option FabricRemoteChunkManager × Option StorageError) × FabricBackend :=
  if ctx.cancelled then
    ((none, some StorageError.cancellation), w)
  else if missingRequired required c then
    ((none, some StorageError.configuration), w)
  else if !w.reachable then
    ((none, some StorageError.backendConstruction), w)
  else
    ((some ⟨w.acquired, c⟩, none), ⟨w.acquired + 1, w.reachable⟩)

/-- Modelled from the spec: the base factory constructor
`NewChunkManagerFactoryWithParam`, defined in another file of the package. By
sections 2 and 3 of the spec the base factory holds the configuration it was built
from and the backend name the configuration gives for the persistent storage role. -/
def NewChunkManagerFactoryWithParam (params : Configuration) :
    Option (ChunkManagerFactory Configuration) :=
  some ⟨(params.lookup "persistentStorage").getD "", params⟩

/-- The collaborators as the spec describes them, for a given list of settings the
fabric remote backend requires. -/
def fabricCollaborators (required : List String) :
    Collaborators Configuration Configuration ContextToken FabricRemoteChunkManager
      StorageError FabricBackend :=
  ⟨NewChunkManagerFactoryWithParam, NewFabricRemoteChunkManager required⟩

/-- A configuration that carries the one setting required in the samples below and
names the backend "local-disk" for the persistent storage role. -/
def sampleConfig : Configuration :=
  [("persistentStorage", "local-disk"), ("accessKey", "k")]

/-- The collaborators of the samples: the fabric remote backend requires `accessKey`. -/
def sampleCollaborators :
    Collaborators Configuration Configuration ContextToken FabricRemoteChunkManager
      StorageError FabricBackend :=
  fabricCollaborators ["accessKey"]

/-- A backend that can be reached and has acquired nothing yet. -/
def sampleBackend : FabricBackend := ⟨0, true⟩

/-- The zero value of `FabricChunkManagerFactory`: its base factory pointer is nil. -/
def zeroValueFactory : FabricChunkManagerFactory Configuration := ⟨none⟩

end FabricRemoteModel

section Properties

variable {Params Config Context ChunkManager Err World : Type}

/-- With a base factory present, `newChunkManager` returns what the backend
constructor returns for the caller context and the stored configuration. -/
theorem newChunkManager_of_base
    (env : Collaborators Params Config Context ChunkManager Err World)
    (fv : FabricChunkManagerFactory Config) (base : ChunkManagerFactory Config)
    (ctx : Context) (engine : String) (w : World)
    (h : fv.chunkManagerFactory = some base) :
    newChunkManager env (some fv) ctx engine w =
      ⟨Except.ok (env.NewFabricRemoteChunkManager ctx base.config w).1, some fv,
        (env.NewFabricRemoteChunkManager ctx base.config w).2⟩ := by
  simp [newChunkManager, h]

/-- With a base factory present, `NewPersistentStorageChunkManager` returns what the
backend constructor returns for the caller context and the stored configuration. -/
theorem persistent_of_base
    (env : Collaborators Params Config Context ChunkManager Err World)
    (fv : FabricChunkManagerFactory Config) (base : ChunkManagerFactory Config)
    (ctx : Context) (w : World)
    (h : fv.chunkManagerFactory = some base) :
    NewPersistentStorageChunkManager env (some fv) ctx w =
      ⟨Except.ok (env.NewFabricRemoteChunkManager ctx base.config w).1, some fv,
        (env.NewFabricRemoteChunkManager ctx base.config w).2⟩ := by
  simp [NewPersistentStorageChunkManager, newChunkManager, h]

/-- Without a base factory `NewPersistentStorageChunkManager` panics and touches
nothing. -/
theorem persistent_of_nil_base
    (env : Collaborators Params Config Context ChunkManager Err World)
    (fv : FabricChunkManagerFactory Config) (ctx : Context) (w : World)
    (h : fv.chunkManagerFactory = none) :
    NewPersistentStorageChunkManager env (some fv) ctx w =
      ⟨Except.error Fault.nilDereference, some fv, w⟩ := by
  simp [NewPersistentStorageChunkManager, h]

/-- C1 (override). Two fabric factories whose base factories hold the same config,
whatever backend names their `persistentStorage` fields carry, give the same returned
pair and the same backend state from `NewPersistentStorageChunkManager`, and that pair
is the one the fabric remote constructor produces for that config: the backend name of
the base factory has no influence. -/
theorem C1_override_ignores_backend_name
    (env : Collaborators Params Config Context ChunkManager Err World)
    (f₁ f₂ : FabricChunkManagerFactory Config) (b₁ b₂ : ChunkManagerFactory Config)
    (ctx : Context) (w : World)
    (h₁ : f₁.chunkManagerFactory = some b₁) (h₂ : f₂.chunkManagerFactory = some b₂)
    (hc : b₁.config = b₂.config) :
    (NewPersistentStorageChunkManager env (some f₁) ctx w).result =
        (NewPersistentStorageChunkManager env (some f₂) ctx w).result ∧
      (NewPersistentStorageChunkManager env (some f₁) ctx w).world =
        (NewPersistentStorageChunkManager env (some f₂) ctx w).world ∧
      (NewPersistentStorageChunkManager env (some f₁) ctx w).result =
        Except.ok (env.NewFabricRemoteChunkManager ctx b₁.config w).1 := by
  rw [persistent_of_base env f₁ b₁ ctx w h₁, persistent_of_base env f₂ b₂ ctx w h₂, hc]
  exact ⟨rfl, rfl, rfl⟩

/-- Witness of C1: base factories naming "local-disk" and "fabric-remote" over the same
configuration. -/
theorem C1_override_ignores_backend_name_witness :
    (NewPersistentStorageChunkManager sampleCollaborators
        (some ⟨some ⟨"local-disk", sampleConfig⟩⟩) ⟨false⟩ sampleBackend).result =
        (NewPersistentStorageChunkManager sampleCollaborators
          (some ⟨some ⟨"fabric-remote", sampleConfig⟩⟩) ⟨false⟩ sampleBackend).result ∧
      (NewPersistentStorageChunkManager sampleCollaborators
        (some ⟨some ⟨"local-disk", sampleConfig⟩⟩) ⟨false⟩ sampleBackend).world =
        (NewPersistentStorageChunkManager sampleCollaborators
          (some ⟨some ⟨"fabric-remote", sampleConfig⟩⟩) ⟨false⟩ sampleBackend).world ∧
      (NewPersistentStorageChunkManager sampleCollaborators
        (some ⟨some ⟨"local-disk", sampleConfig⟩⟩) ⟨false⟩ sampleBackend).result =
        Except.ok (sampleCollaborators.NewFabricRemoteChunkManager ⟨false⟩
          sampleConfig sampleBackend).1 :=
  C1_override_ignores_backend_name sampleCollaborators
    ⟨some ⟨"local-disk", sampleConfig⟩⟩ ⟨some ⟨"fabric-remote", sampleConfig⟩⟩
    ⟨"local-disk", sampleConfig⟩ ⟨"fabric-remote", sampleConfig⟩ ⟨false⟩ sampleBackend
    rfl rfl rfl

/-- C2 (thin pass-through). For a fabric factory with a non-nil base factory,
`NewPersistentStorageChunkManager` returns exactly the pair that
`NewFabricRemoteChunkManager` returns for the caller context and the stored config of
the base factory, leaves the backend in the state that constructor left it in, and
does not panic: handle and error are handed on as they are. -/
theorem C2_thin_pass_through
    (env : Collaborators Params Config Context ChunkManager Err World)
    (fv : FabricChunkManagerFactory Config) (base : ChunkManagerFactory Config)
    (ctx : Context) (w : World)
    (h : fv.chunkManagerFactory = some base) :
    (NewPersistentStorageChunkManager env (some fv) ctx w).result =
        Except.ok (env.NewFabricRemoteChunkManager ctx base.config w).1 ∧
      (NewPersistentStorageChunkManager env (some fv) ctx w).world =
        (env.NewFabricRemoteChunkManager ctx base.config w).2 := by
  rw [persistent_of_base env fv base ctx w h]
  exact ⟨rfl, rfl⟩

/-- Witness of C2: a factory over the sample configuration, live context. -/
theorem C2_thin_pass_through_witness :
    (NewPersistentStorageChunkManager sampleCollaborators
        (some ⟨some ⟨"local-disk", sampleConfig⟩⟩) ⟨false⟩ sampleBackend).result =
        Except.ok (sampleCollaborators.NewFabricRemoteChunkManager ⟨false⟩
          sampleConfig sampleBackend).1 ∧
      (NewPersistentStorageChunkManager sampleCollaborators
        (some ⟨some ⟨"local-disk", sampleConfig⟩⟩) ⟨false⟩ sampleBackend).world =
        (sampleCollaborators.NewFabricRemoteChunkManager ⟨false⟩
          sampleConfig sampleBackend).2 :=
  C2_thin_pass_through sampleCollaborators ⟨some ⟨"local-disk", sampleConfig⟩⟩
    ⟨"local-disk", sampleConfig⟩ ⟨false⟩ sampleBackend rfl

/-- C3 (total entry point). For every params,
`NewFabricChunkManagerFactoryWithParam` returns a non-nil pointer to a fabric factory
whose `chunkManagerFactory` field is exactly what `NewChunkManagerFactoryWithParam`
returned for the same params. The Go function has no error result. -/
theorem C3_entry_point_total
    (env : Collaborators Params Config Context ChunkManager Err World)
    (params : Params) :
    ∃ fv : FabricChunkManagerFactory Config,
      NewFabricChunkManagerFactoryWithParam env params = some fv ∧
      fv.chunkManagerFactory = env.NewChunkManagerFactoryWithParam params :=
  ⟨⟨env.NewChunkManagerFactoryWithParam params⟩, rfl, rfl⟩

/-- C4 (role identifier not validated). For every receiver, context and backend
state, `newChunkManager` gives the same outcome for any two engine strings; whether it
panics depends on the receiver alone, and with a base factory present every engine
string gives the result of the fabric remote constructor. -/
theorem C4_engine_not_validated
    (env : Collaborators Params Config Context ChunkManager Err World)
    (f : Option (FabricChunkManagerFactory Config)) (ctx : Context)
    (e₁ e₂ : String) (w : World) :
    newChunkManager env f ctx e₁ w = newChunkManager env f ctx e₂ w ∧
      ((∃ p, (newChunkManager env f ctx e₁ w).result = Except.error p) ↔
        f.bind (fun fv => fv.chunkManagerFactory) = none) ∧
      (∀ base : ChunkManagerFactory Config,
        (newChunkManager env (some ⟨some base⟩) ctx e₁ w).result =
          Except.ok (env.NewFabricRemoteChunkManager ctx base.config w).1) := by
  refine ⟨rfl, ?_, fun base => rfl⟩
  cases f with
  | none =>
    simp only [newChunkManager, Option.bind]
    exact ⟨fun _ => trivial, fun _ => ⟨Fault.nilDereference, trivial⟩⟩
  | some fv =>
    cases hb : fv.chunkManagerFactory with
    | none =>
      simp only [newChunkManager, Option.bind, hb]
      exact ⟨fun _ => trivial, fun _ => ⟨Fault.nilDereference, trivial⟩⟩
    | some base =>
      simp [newChunkManager, hb]

/-- A method of `fabric_factory.go` never writes to its receiver. -/
theorem receiver_unchanged
    (env : Collaborators Params Config Context ChunkManager Err World)
    (f : Option (FabricChunkManagerFactory Config)) (ctx : Context) (engine : String)
    (w : World) :
    (NewPersistentStorageChunkManager env f ctx w).receiver = f ∧
      (newChunkManager env f ctx engine w).receiver = f := by
  cases f with
  | none => exact ⟨rfl, rfl⟩
  | some fv =>
    cases hb : fv.chunkManagerFactory with
    | none => simp [NewPersistentStorageChunkManager, newChunkManager, hb]
    | some base => simp [NewPersistentStorageChunkManager, newChunkManager, hb]

/-- What the spec-modelled backend constructor returns for a cancelled token. -/
theorem fabricRemote_cancelled (required : List String) (ctx : ContextToken)
    (c : Configuration) (w : FabricBackend) (hc : ctx.cancelled = true) :
    NewFabricRemoteChunkManager required ctx c w =
      ((none, some StorageError.cancellation), w) := by
  simp [NewFabricRemoteChunkManager, hc]

/-- C5, as stated, fails at the zero-value factory: with an already cancelled context
`NewPersistentStorageChunkManager` panics on the nil base factory, it does not return
a cancellation error. -/
theorem C5_counterexample_zero_value_factory :
    (NewPersistentStorageChunkManager sampleCollaborators (some zeroValueFactory)
        ⟨true⟩ sampleBackend).result = Except.error Fault.nilDereference ∧
      (NewPersistentStorageChunkManager sampleCollaborators (some zeroValueFactory)
        ⟨true⟩ sampleBackend).result ≠
        Except.ok (none, some StorageError.cancellation) := by
  constructor
  · rfl
  · intro h
    cases h

/-- C5 amended (cancellation). For every fabric factory with a non-nil base factory,
if the context is already cancelled before the call,
`NewPersistentStorageChunkManager` returns a nil handle together with the cancellation
error and leaves the backend state, hence the resources acquired, as it was. -/
theorem C5_cancelled_context
    (required : List String) (fv : FabricChunkManagerFactory Configuration)
    (base : ChunkManagerFactory Configuration) (ctx : ContextToken) (w : FabricBackend)
    (h : fv.chunkManagerFactory = some base) (hc : ctx.cancelled = true) :
    (NewPersistentStorageChunkManager (fabricCollaborators required) (some fv) ctx
        w).result = Except.ok (none, some StorageError.cancellation) ∧
      (NewPersistentStorageChunkManager (fabricCollaborators required) (some fv) ctx
        w).world = w := by
  rw [persistent_of_base (fabricCollaborators required) fv base ctx w h]
  simp [fabricCollaborators, fabricRemote_cancelled required ctx base.config w hc]

/-- Witness of C5 amended: a factory over the sample configuration, cancelled context. -/
theorem C5_cancelled_context_witness :
    (NewPersistentStorageChunkManager (fabricCollaborators ["accessKey"])
        (some ⟨some ⟨"local-disk", sampleConfig⟩⟩) ⟨true⟩ sampleBackend).result =
        Except.ok (none, some StorageError.cancellation) ∧
      (NewPersistentStorageChunkManager (fabricCollaborators ["accessKey"])
        (some ⟨some ⟨"local-disk", sampleConfig⟩⟩) ⟨true⟩ sampleBackend).world =
        sampleBackend :=
  C5_cancelled_context ["accessKey"] ⟨some ⟨"local-disk", sampleConfig⟩⟩
    ⟨"local-disk", sampleConfig⟩ ⟨true⟩ sampleBackend rfl rfl

/-- C7 (statelessness). A call of `NewPersistentStorageChunkManager` or of
`newChunkManager`, whatever it returned, leaves the object behind the receiver as it
was: same base factory, same `config`, same `persistentStorage`. A later call on the
receiver as the first call left it therefore behaves, from any backend state, as a
call on the original receiver, and with a base factory present it hands the same
context and the same stored config to the backend constructor. -/
theorem C7_factory_unchanged
    (env : Collaborators Params Config Context ChunkManager Err World)
    (f : Option (FabricChunkManagerFactory Config)) (ctx : Context) (engine : String)
    (w w₂ : World) :
    (NewPersistentStorageChunkManager env f ctx w).receiver = f ∧
      (newChunkManager env f ctx engine w).receiver = f ∧
      NewPersistentStorageChunkManager env
          (NewPersistentStorageChunkManager env f ctx w).receiver ctx w₂ =
        NewPersistentStorageChunkManager env f ctx w₂ ∧
      newChunkManager env (newChunkManager env f ctx engine w).receiver ctx engine w₂ =
        newChunkManager env f ctx engine w₂ ∧
      (∀ base : ChunkManagerFactory Config,
        (NewPersistentStorageChunkManager env
            (NewPersistentStorageChunkManager env (some ⟨some base⟩) ctx w).receiver
            ctx w₂).result =
          Except.ok (env.NewFabricRemoteChunkManager ctx base.config w₂).1) := by
  have hr := receiver_unchanged env f ctx engine w
  refine ⟨hr.1, hr.2, ?_, ?_, fun base => rfl⟩
  · rw [hr.1]
  · rw [hr.2]

/-- C9 (end-to-end composition). For every params, context and backend state,
calling `NewPersistentStorageChunkManager` on the factory built by
`NewFabricChunkManagerFactoryWithParam` gives what
`NewFabricRemoteChunkManager(ctx, NewChunkManagerFactoryWithParam(params).config)`
gives: the result and backend state of the fabric remote constructor on the config of
the base factory built from the same params, and the panic of the dereference when
that base factory pointer is nil. -/
theorem C9_end_to_end
    (env : Collaborators Params Config Context ChunkManager Err World)
    (params : Params) (ctx : Context) (w : World) :
    (NewPersistentStorageChunkManager env
        (NewFabricChunkManagerFactoryWithParam env params) ctx w).result =
        (match env.NewChunkManagerFactoryWithParam params with
          | none => Except.error Fault.nilDereference
          | some base =>
            Except.ok (env.NewFabricRemoteChunkManager ctx base.config w).1) ∧
      (NewPersistentStorageChunkManager env
        (NewFabricChunkManagerFactoryWithParam env params) ctx w).world =
        (match env.NewChunkManagerFactoryWithParam params with
          | none => w
          | some base => (env.NewFabricRemoteChunkManager ctx base.config w).2) := by
  cases hb : env.NewChunkManagerFactoryWithParam params with
  | none =>
    simp [NewFabricChunkManagerFactoryWithParam, NewPersistentStorageChunkManager, hb]
  | some base =>
    simp [NewFabricChunkManagerFactoryWithParam, NewPersistentStorageChunkManager,
      newChunkManager, hb]

/-- C10 (nil safety). For a fabric factory, `NewPersistentStorageChunkManager` panics
exactly when the `chunkManagerFactory` pointer of the factory is nil; the zero-value
factory is such a factory; and on the factory returned by
`NewFabricChunkManagerFactoryWithParam`, when `NewChunkManagerFactoryWithParam`
returned a non-nil base factory, the call does not panic and returns what the backend
constructor returns for the config of that base factory. -/
theorem C10_nil_safety
    (env : Collaborators Params Config Context ChunkManager Err World)
    (fv : FabricChunkManagerFactory Config) (params : Params) (ctx : Context)
    (w : World) :
    ((∃ p, (NewPersistentStorageChunkManager env (some fv) ctx w).result =
          Except.error p) ↔ fv.chunkManagerFactory = none) ∧
      (NewPersistentStorageChunkManager env (some ⟨none⟩) ctx w).result =
        Except.error Fault.nilDereference ∧
      (∀ base : ChunkManagerFactory Config,
        env.NewChunkManagerFactoryWithParam params = some base →
        (NewPersistentStorageChunkManager env
            (NewFabricChunkManagerFactoryWithParam env params) ctx w).result =
          Except.ok (env.NewFabricRemoteChunkManager ctx base.config w).1) := by
  refine ⟨?_, rfl, ?_⟩
  · cases hb : fv.chunkManagerFactory with
    | none =>
      rw [persistent_of_nil_base env fv ctx w hb]
      exact ⟨fun _ => rfl, fun _ => ⟨Fault.nilDereference, rfl⟩⟩
    | some base =>
      rw [persistent_of_base env fv base ctx w hb]
      simp
  · intro base hb
    have h : NewFabricChunkManagerFactoryWithParam env params = some ⟨some base⟩ := by
      simp [NewFabricChunkManagerFactoryWithParam, hb]
    rw [h, persistent_of_base env ⟨some base⟩ base ctx w rfl]

/-- Witness of C10: the factory built from the sample configuration, whose base
factory the spec-modelled base constructor returns non-nil. -/
theorem C10_nil_safety_witness :
    sampleCollaborators.NewChunkManagerFactoryWithParam sampleConfig =
        some ⟨"local-disk", sampleConfig⟩ ∧
      (NewPersistentStorageChunkManager sampleCollaborators
        (NewFabricChunkManagerFactoryWithParam sampleCollaborators sampleConfig)
        ⟨false⟩ sampleBackend).result =
        Except.ok (some ⟨0, sampleConfig⟩, none) :=
  ⟨by decide,
    (C10_nil_safety sampleCollaborators zeroValueFactory sampleConfig ⟨false⟩
      sampleBackend).2.2 ⟨"local-disk", sampleConfig⟩ (by decide)⟩

end Properties

end storage
